import Mathlib

/-!
Verification development for a food-ordering chatbot dialogue engine.

The definitions below are a shallow embedding of the Python sources:
app/nlp/RegexNLPService.py, app/nlp/HybridNLPService.py,
app/services/clarification_service.py, app/core/intent_router.py,
app/core/conversation_orchestrator.py, app/handlers/confirmation_handler.py
and the handler can_handle predicates.  Python dicts with a fixed key set
are embedded as structures; the NLP entity dict (whose keys may be absent)
is an association list; machine floats used only as literal confidences
and prices are embedded as rationals / naturals; exceptions at the
provider boundary are embedded as an explicit outcome type.
-/

/-! ## Character and string helpers (Python str / re primitives) -/

/-- Python regex class [؀-ۿ], used by detect_lang. -/
def isArabicChar (c : Char) : Bool :=
  0x600 ≤ c.toNat && c.toNat ≤ 0x6FF

/-- Python \s whitespace class. -/
def isPySpace (c : Char) : Bool :=
  c == ' ' || c == '\t' || c == '\n' || c == '\r' || c == '\x0b' || c == '\x0c'

/-- Regex class [a-z]. -/
def isLowerAZ (c : Char) : Bool :=
  'a' ≤ c && c ≤ 'z'

/-- Python \w word-character class, restricted to the alphabets this app uses. -/
def isWordChar (c : Char) : Bool :=
  c.isAlphanum || c == '_' || isArabicChar c

/-- Word-or-space character, the class [\w\s]. -/
def isWordOrSpace (c : Char) : Bool :=
  isWordChar c || isPySpace c

/-- str.lower over the characters of a string (ASCII case only, as in this app). -/
def lowerL (l : List Char) : List Char :=
  l.map Char.toLower

/-- str.strip(): drop leading and trailing whitespace. -/
def stripWs (l : List Char) : List Char :=
  ((l.dropWhile isPySpace).reverse.dropWhile isPySpace).reverse

/-- str.split() with no separator: split on whitespace runs, no empty parts. -/
def splitWsAux : List Char → List Char → List (List Char)
  | [], cur => if cur.isEmpty then [] else [cur.reverse]
  | c :: rest, cur =>
    if isPySpace c then
      if cur.isEmpty then splitWsAux rest [] else cur.reverse :: splitWsAux rest []
    else splitWsAux rest (c :: cur)

def splitWs (l : List Char) : List (List Char) :=
  splitWsAux l []

/-- " ".join(words). -/
def joinSpace (ws : List (List Char)) : List Char :=
  List.intercalate [' '] ws

/-- Literal characters of a string pattern. -/
def pat (s : String) : List Char :=
  s.data

/-- Substring test, Python `needle in hay` / re.search of a literal. -/
def containsSub (needle : List Char) : List Char → Bool
  | [] => needle.isEmpty
  | c :: rest => List.isPrefixOf needle (c :: rest) || containsSub needle rest

/-- Search for any of several literal alternatives. -/
def containsAny (needles : List (List Char)) (hay : List Char) : Bool :=
  needles.any (fun n => containsSub n hay)

/-- Drop a literal prefix, returning the rest on success. -/
def dropLit (needle l : List Char) : Option (List Char) :=
  if List.isPrefixOf needle l then some (l.drop needle.length) else none

/-- Expand a concatenation of literal-alternation groups into all the literal
strings the regex can match (e.g. `(show|view) (?:my )?cart`). -/
def altConcat : List (List String) → List (List Char)
  | [] => [[]]
  | g :: gs =>
    (g.map pat).flatMap (fun a => (altConcat gs).map (fun rest => a ++ rest))

/-- Digit run to a number, Python int() on the captured group. -/
def digitsToNat (ds : List Char) : Nat :=
  ds.foldl (fun acc c => acc * 10 + (c.toNat - '0'.toNat)) 0

/-! ## Entity map (the NLP entities dict) -/

inductive EVal where
  | str (s : String)
  | num (n : Nat)
deriving DecidableEq, Repr

/-- The entities dict: keys mapped to a possibly-null value; a key may also be
absent from the dict altogether. -/
def Entities := List (String × Option EVal)

instance : DecidableEq Entities := by
  unfold Entities; infer_instance

/-- dict lookup: none = key absent, some none = key present with value None. -/
def entLookup (e : Entities) (k : String) : Option (Option EVal) :=
  (e.find? (fun p => p.1 == k)).map Prod.snd

/-- dict assignment entities[k] = v (replaces the first binding, else appends). -/
def entSet (e : Entities) (k : String) (v : Option EVal) : Entities :=
  match e with
  | [] => [(k, v)]
  | (k0, v0) :: rest =>
    if k0 == k then (k, v) :: rest else (k0, v0) :: entSet rest k v

/-- RegexNLPService.empty_entities. -/
def empty_entities : Entities :=
  [("item", none), ("size", none), ("quantity", none),
   ("order_id", none), ("address", none), ("phone", none)]

/-- Key present with a non-null value. -/
def entHasValue (e : Entities) (k : String) : Bool :=
  match entLookup e k with
  | some (some _) => true
  | _ => false

/-- `entities.get(k) or ""` lowered, as used by _get_required_fields. -/
def entGetStrLower (e : Entities) (k : String) : List Char :=
  match entLookup e k with
  | some (some (EVal.str s)) => lowerL s.data
  | _ => []

/-! ## ClarificationService (app/services/clarification_service.py) -/

/-- Keyword family marking simple additions that need no size. -/
def additions_keywords : List String :=
  ["fries", "cola", "juice", "water", "drink"]

/-- ClarificationService._get_required_fields. -/
def get_required_fields (intent : String) (entities : Entities) : List String :=
  if intent == "add_item" then
    let item_name := entGetStrLower entities "item"
    let is_addition := additions_keywords.any (fun kw => containsSub (pat kw) item_name)
    if is_addition then ["item"] else ["item", "size"]
  else if intent == "remove_item" then ["item"]
  else if intent == "track_order" then ["order_id"]
  else if intent == "modify_order" then ["order_id", "action"]
  else []

/-- A required field counts as missing when absent from the dict or bound to None. -/
def fieldMissing (entities : Entities) (f : String) : Bool :=
  !entHasValue entities f

/-- ClarificationService.needs_clarification. -/
def needs_clarification (intent : String) (entities : Entities) : Bool × List String :=
  let required := get_required_fields intent entities
  let missing := required.filter (fun f => fieldMissing entities f)
  (decide (missing.length > 0), missing)

/-! ## RegexNLPService (app/nlp/RegexNLPService.py) -/

/-- RegexNLPService.detect_lang: Arabic script selects "ar", default "en". -/
def detect_lang (text : List Char) : String :=
  if text.any isArabicChar then "ar" else "en"

/-- Language-indexed filler-word table. -/
def filler_words (lang : String) : List (List Char) :=
  if lang == "en" then [pat "a", pat "an", pat "the", pat "some"] else []

/-- RegexNLPService.clean_item_name: strip, lower, drop leading filler words. -/
def clean_item_name (text : List Char) (lang : String) : List Char :=
  let words := splitWs (lowerL (stripWs text))
  joinSpace (words.dropWhile (fun w => (filler_words lang).contains w))

/-- Language-indexed word-number table (text_numbers). -/
def text_numbers (lang : String) : List (List Char × Nat) :=
  if lang == "ar" then
    [(pat "واحد", 1), (pat "اتنين", 2), (pat "تلاتة", 3), (pat "اربعة", 4), (pat "خمسة", 5),
     (pat "ستة", 6), (pat "سبعة", 7), (pat "تمانية", 8), (pat "تسعة", 9), (pat "عشرة", 10)]
  else
    [(pat "one", 1), (pat "two", 2), (pat "three", 3), (pat "four", 4), (pat "five", 5),
     (pat "six", 6), (pat "seven", 7), (pat "eight", 8), (pat "nine", 9), (pat "ten", 10)]

/-- RegexNLPService.convert_text_number_to_digit: leading word-number to digit,
returning (quantity, remaining text). -/
def convert_text_number_to_digit (text : List Char) (lang : String) :
    Option Nat × List Char :=
  let words := splitWs (lowerL (stripWs text))
  match words with
  | [] => (none, text)
  | w :: rest =>
    match ((text_numbers lang).find? (fun p => p.1 == w)).map Prod.snd with
    | some q => (some q, joinSpace rest)
    | none => (none, text)

/-- Size sub-pattern table: ordered (code, word alternatives) pairs. -/
def size_patterns (lang : String) : List (String × List (List Char)) :=
  if lang == "ar" then
    [("S", [pat "صغير", pat "ص"]), ("M", [pat "متوسط", pat "م"]),
     ("L", [pat "كبير", pat "ك"]), ("REG", [pat "عادي", pat "عاد"])]
  else
    [("S", [pat "small", pat "s"]), ("M", [pat "medium", pat "m"]),
     ("L", [pat "large", pat "l"]), ("REG", [pat "regular", pat "reg"])]

/-- Match one alternative at the head of l with a following word boundary,
returning the rest after the matched word. -/
def matchWordAlt (alts : List (List Char)) (l : List Char) : Option (List Char) :=
  match alts with
  | [] => none
  | a :: rest =>
    match dropLit a l with
    | some tail =>
      match tail with
      | [] => some tail
      | c :: _ => if isWordChar c then matchWordAlt rest l else some tail
    | none => matchWordAlt rest l

/-- re.search of a whole-word alternation such as \b(small|s)\b: scan for an
occurrence whose start sits at a word boundary. -/
def searchWordAux (fuel : Nat) (prevWord : Bool) (l : List Char)
    (alts : List (List Char)) : Bool :=
  match fuel, l with
  | 0, _ => false
  | _, [] => false
  | fuel + 1, c :: rest =>
    if !prevWord && (matchWordAlt alts (c :: rest)).isSome then true
    else searchWordAux fuel (isWordChar c) rest alts

def searchWord (alts : List (List Char)) (l : List Char) : Bool :=
  searchWordAux (l.length + 1) false l alts

/-- re.sub of the same whole-word alternation with "": remove every
non-overlapping whole-word occurrence. -/
def subWordAux (fuel : Nat) (prevWord : Bool) (l : List Char)
    (alts : List (List Char)) : List Char :=
  match fuel, l with
  | 0, l => l
  | _, [] => []
  | fuel + 1, c :: rest =>
    if !prevWord then
      match matchWordAlt alts (c :: rest) with
      | some tail => subWordAux fuel false tail alts
      | none => c :: subWordAux fuel (isWordChar c) rest alts
    else c :: subWordAux fuel (isWordChar c) rest alts

def subWord (alts : List (List Char)) (l : List Char) : List Char :=
  subWordAux (l.length + 1) false l alts

/-- re.sub(r"\s+", " ", text): collapse each whitespace run to one space.
The flag records whether the scan is inside a run already emitted as " ". -/
def collapseWsAux : Bool → List Char → List Char
  | _, [] => []
  | inRun, c :: rest =>
    if isPySpace c then
      if inRun then collapseWsAux true rest else ' ' :: collapseWsAux true rest
    else c :: collapseWsAux false rest

def collapseWs (l : List Char) : List Char :=
  collapseWsAux false l

/-- RegexNLPService.extract_size: first size pattern with a whole-word match
wins; its occurrences are removed, the remainder stripped and re-spaced. -/
def extract_size (text : List Char) (lang : String) : Option String × List Char :=
  let text_lower := stripWs (lowerL text)
  let patterns := size_patterns lang
  match patterns.find? (fun p => searchWord p.2 text_lower) with
  | some (code, alts) =>
    (some code, collapseWs (stripWs (subWord alts text_lower)))
  | none => (none, text_lower)

/-! ### Multi-item detection and splitting -/

/-- Regex class \d (ASCII digits, as used on these inputs). -/
def isDigitB (c : Char) : Bool :=
  c.isDigit

/-- Count non-overlapping matches of the pattern \d+\s*[a-z] (is_multi_item,
first check), with re.findall scan semantics: on a failed attempt the scan
restarts one character later. -/
def countNumLetterAux (fuel : Nat) (l : List Char) : Nat :=
  match fuel, l with
  | 0, _ => 0
  | _, [] => 0
  | fuel + 1, c :: rest =>
    if isDigitB c then
      let r1 := (c :: rest).dropWhile isDigitB
      let r2 := r1.dropWhile isPySpace
      match r2 with
      | x :: r3 => if isLowerAZ x then 1 + countNumLetterAux fuel r3
                   else countNumLetterAux fuel rest
      | [] => countNumLetterAux fuel rest
    else countNumLetterAux fuel rest

def countNumLetter (l : List Char) : Nat :=
  countNumLetterAux (l.length + 1) l

/-- re.search(r"\b(and|,)\b"): an "and" at word boundaries, or a comma with
word characters adjacent on both sides. -/
def searchAndCommaAux (prevWord : Bool) : List Char → Bool
  | [] => false
  | c :: rest =>
    if !prevWord && (matchWordAlt [pat "and"] (c :: rest)).isSome then true
    else if c == ',' && prevWord && (match rest with
                                     | d :: _ => isWordChar d
                                     | [] => false) then true
    else searchAndCommaAux (isWordChar c) rest

def searchAndComma (l : List Char) : Bool :=
  searchAndCommaAux false l

/-- re.split(r"\band\b|,"): split on whole-word "and" or on any comma. -/
def splitAndCommaAux (fuel : Nat) (prevWord : Bool) (cur : List Char)
    (l : List Char) : List (List Char) :=
  match fuel, l with
  | 0, l => [(cur.reverse ++ l)]
  | _, [] => [cur.reverse]
  | fuel + 1, c :: rest =>
    if c == ',' then
      cur.reverse :: splitAndCommaAux fuel false [] rest
    else
      match (if !prevWord then matchWordAlt [pat "and"] (c :: rest) else none) with
      | some tail => cur.reverse :: splitAndCommaAux fuel true [] tail
      | none => splitAndCommaAux fuel (isWordChar c) (c :: cur) rest

def splitAndComma (l : List Char) : List (List Char) :=
  splitAndCommaAux (l.length + 1) false [] l

/-- RegexNLPService.is_multi_item. -/
def is_multi_item (text : String) : Bool :=
  let tl := lowerL text.data
  if countNumLetter tl ≥ 2 then true
  else if searchAndComma tl then
    let parts := splitAndComma tl
    decide (parts.length ≥ 2) && parts.all (fun p => !(stripWs p).isEmpty)
  else false

/-- The lookahead (?=\s*\d|$|\s+and\s+|,) of the repeated number+item scan. -/
def lookaheadOk (r : List Char) : Bool :=
  r.isEmpty ||
  (match r.dropWhile isPySpace with
   | d :: _ => isDigitB d
   | [] => false) ||
  (match r with
   | c :: _ => c == ','
   | [] => false) ||
  (let sp := r.takeWhile isPySpace
   let r1 := r.dropWhile isPySpace
   !sp.isEmpty &&
     (match dropLit (pat "and") r1 with
      | some r2 => !(r2.takeWhile isPySpace).isEmpty
      | none => false))

/-- The lazily-extended item group [a-z]+(?:\s+[a-z]+)*? of the number+item
scan: words are added one at a time until the lookahead holds. -/
def matchItemWordsAux (fuel : Nat) (acc : List Char) (r : List Char) :
    Option (List Char × List Char) :=
  match fuel with
  | 0 => none
  | fuel + 1 =>
    if lookaheadOk r then some (acc, r)
    else
      let sp := r.takeWhile isPySpace
      let r1 := r.dropWhile isPySpace
      if sp.isEmpty then none
      else
        let w := r1.takeWhile isLowerAZ
        let r2 := r1.dropWhile isLowerAZ
        if w.isEmpty then none
        else matchItemWordsAux fuel (acc ++ sp ++ w) r2

def matchItemWords (l : List Char) : Option (List Char × List Char) :=
  let w := l.takeWhile isLowerAZ
  let r := l.dropWhile isLowerAZ
  if w.isEmpty then none
  else matchItemWordsAux (l.length + 1) w r

/-- re.findall of (\d+)\s*([a-z]+(?:\s+[a-z]+)*?)(?=\s*\d|$|\s+and\s+|,):
the repeated "number + item" scan of parse_multi_items, strategy 1. -/
def findNumItemAux (fuel : Nat) (l : List Char) : List (List Char × List Char) :=
  match fuel, l with
  | 0, _ => []
  | _, [] => []
  | fuel + 1, c :: rest =>
    if isDigitB c then
      let ds := (c :: rest).takeWhile isDigitB
      let r1 := (c :: rest).dropWhile isDigitB
      let r2 := r1.dropWhile isPySpace
      match matchItemWords r2 with
      | some (item, r3) => (ds, item) :: findNumItemAux fuel r3
      | none => findNumItemAux fuel rest
    else findNumItemAux fuel rest

def findNumItem (l : List Char) : List (List Char × List Char) :=
  findNumItemAux (l.length + 1) l

/-- One parsed sub-item of a multi-item command. -/
structure BatchItem where
  item : String
  quantity : Nat
  size : Option String
deriving DecidableEq, Repr

/-- Build a batch entry from raw quantity and item text, shared by both
strategies: extract an embedded size (English sub-table), clean filler words,
and keep the entry only when a nonempty clean name remains. -/
def batchEntry (qty : Nat) (item_text : List Char) : List BatchItem :=
  let (size, clean0) := extract_size item_text "en"
  let clean := clean_item_name clean0 "en"
  if clean.isEmpty then [] else [{ item := ⟨clean⟩, quantity := qty, size := size }]

/-- The regex ^(\d+)\s*(.+)$ used on each separator-split part. -/
def qtyHeadMatch (l : List Char) : Option (Nat × List Char) :=
  let ds := l.takeWhile isDigitB
  let r1 := l.dropWhile isDigitB
  let r2 := r1.dropWhile isPySpace
  if ds.isEmpty || r2.isEmpty then none else some (digitsToNat ds, r2)

/-- Parse one separator-split part (strategy 2 loop body). -/
def splitPartEntry (part : List Char) : List BatchItem :=
  let p := stripWs part
  if p.isEmpty then []
  else
    match qtyHeadMatch p with
    | some (qty, item_text) => batchEntry qty item_text
    | none =>
      match convert_text_number_to_digit p "en" with
      | (some qty, remaining) => batchEntry qty remaining
      | (none, _) => batchEntry 1 p

/-- RegexNLPService.parse_multi_items. -/
def parse_multi_items (text : String) : List BatchItem :=
  let tl := stripWs (lowerL text.data)
  let ms := findNumItem tl
  if ms.length ≥ 2 then
    ms.flatMap (fun m =>
      let item_name := stripWs m.2
      if item_name.isEmpty then [] else batchEntry (digitsToNat m.1) item_name)
  else
    let parts := splitAndComma tl
    if parts.length ≥ 2 then parts.flatMap splitPartEntry
    else []

/-! ### The ordered intent-pattern table and parse -/

/-- Try a list of verb alternatives at one position, in pattern order; a verb
whose continuation fails is backtracked and the next alternative tried. -/
def tryVerbTail (tail : List Char → Option (List Char)) :
    List (List Char) → List Char → Option (List Char)
  | [], _ => none
  | v :: vs, l =>
    match dropLit v l with
    | some after =>
      match tail after with
      | some r => some r
      | none => tryVerbTail tail vs l
    | none => tryVerbTail tail vs l

/-- re.search scan: leftmost position where some alternative plus its
continuation matches. -/
def scanVerbTail (tail : List Char → Option (List Char))
    (verbs : List (List Char)) (fuel : Nat) (l : List Char) :
    Option (List Char) :=
  match fuel, l with
  | 0, _ => none
  | _, [] => none
  | fuel + 1, c :: rest =>
    match tryVerbTail tail verbs (c :: rest) with
    | some r => some r
    | none => scanVerbTail tail verbs fuel rest

/-- The optional politeness tail (?:\s+(?:please|...))? followed by $. -/
def politeEndOk (suffixes : List (List Char)) (r : List Char) : Bool :=
  r.isEmpty ||
  (let sp := r.takeWhile isPySpace
   let r1 := r.dropWhile isPySpace
   !sp.isEmpty && suffixes.any (fun s => r1 == s))

/-- The lazy capture (?P<full_input>[\w\s]+?): grown one character at a time
until the politeness tail and end of string match. -/
def lazyFullInputAux (suffixes : List (List Char)) (fuel : Nat)
    (acc : List Char) (body : List Char) : Option (List Char) :=
  match fuel with
  | 0 => none
  | fuel + 1 =>
    if !acc.isEmpty && politeEndOk suffixes body then some acc
    else
      match body with
      | [] => none
      | c :: rest =>
        if isWordOrSpace c then lazyFullInputAux suffixes fuel (acc ++ [c]) rest
        else none

def matchFullInput (suffixes : List (List Char)) (body : List Char) :
    Option (List Char) :=
  lazyFullInputAux suffixes (body.length + 1) [] body

/-- Continuation of the add_item pattern after a matched verb:
\s+ then the optional (?:a\s+) group (greedy, with backtracking) then the
lazy full_input capture. -/
def addTailMatch (optA : Bool) (suffixes : List (List Char))
    (afterVerb : List Char) : Option (List Char) :=
  let sp := afterVerb.takeWhile isPySpace
  let r := afterVerb.dropWhile isPySpace
  if sp.isEmpty then none
  else if optA then
    match r with
    | 'a' :: t =>
      let sp2 := t.takeWhile isPySpace
      let t2 := t.dropWhile isPySpace
      if !sp2.isEmpty then
        match matchFullInput suffixes t2 with
        | some fi => some fi
        | none => matchFullInput suffixes r
      else matchFullInput suffixes r
    | _ => matchFullInput suffixes r
  else matchFullInput suffixes r

/-- Continuation of the remove_item pattern after a matched verb: the verb
separator (\s+ for English, a literal space for Arabic) then the greedy
capture (?P<item>[\d\w\s]+). -/
def removeTailMatch (spacePlus : Bool) (afterVerb : List Char) :
    Option (List Char) :=
  let cont : List Char → Option (List Char) := fun r =>
    let cap := r.takeWhile isWordOrSpace
    if cap.isEmpty then none else some cap
  if spacePlus then
    let sp := afterVerb.takeWhile isPySpace
    let r := afterVerb.dropWhile isPySpace
    if sp.isEmpty then none else cont r
  else
    match afterVerb with
    | ' ' :: r => cont r
    | _ => none

/-- Search for the add_item pattern; returns the full_input capture. -/
def add_item_search (verbs : List (List Char)) (optA : Bool)
    (suffixes : List (List Char)) (tl : List Char) : Option (List Char) :=
  scanVerbTail (addTailMatch optA suffixes) verbs (tl.length + 1) tl

/-- Search for the remove_item pattern; returns the item capture. -/
def remove_search (verbs : List (List Char)) (spacePlus : Bool)
    (tl : List Char) : Option (List Char) :=
  scanVerbTail (removeTailMatch spacePlus) verbs (tl.length + 1) tl

/-- Search for the track_order pattern; on a match, also the optional
order_id capture from (?: number (?P<order_id>\d+))?. -/
def track_order_search (prefixes : List (List Char)) (tl : List Char) :
    Option (Option (List Char)) :=
  match scanVerbTail (fun r => some r) prefixes (tl.length + 1) tl with
  | none => none
  | some rem =>
    some (match dropLit (pat " number ") rem with
          | some t =>
            let ds := t.takeWhile isDigitB
            if ds.isEmpty then none else some ds
          | none => none)

/-- Parsed extraction result (the dict returned by RegexNLPService.parse). -/
structure NLPResult where
  intent : Option String
  lang : String
  entities : Entities
  batch_items : Option (List BatchItem)
  source : String
  confidence : ℚ
deriving DecidableEq

/-- The common return dict of RegexNLPService.parse (lines 288-294):
source "regex", confidence 1.0. -/
def mkParseResult (intent : String) (lang : String) (entities : Entities) :
    NLPResult :=
  { intent := some intent, lang := lang, entities := entities,
    batch_items := none, source := "regex", confidence := 1 }

/-- The regex ^(\d+)\s*([a-z].+)$ of the single-item quantity extraction. -/
def singleQtyMatch (l : List Char) : Option (Nat × List Char) :=
  let ds := l.takeWhile isDigitB
  let r1 := l.dropWhile isDigitB
  let r2 := r1.dropWhile isPySpace
  if ds.isEmpty then none
  else
    match r2 with
    | c :: _ :: _ => if isLowerAZ c then some (digitsToNat ds, r2) else none
    | _ => none

/-- The add_item single-item entity construction (parse lines 266-286):
word-number or numeral quantity, then size extraction, then filler cleaning;
item and size are always assigned. -/
def add_item_entities (full_input : List Char) (lang : String) : Entities :=
  let (text_qty, fi1) := convert_text_number_to_digit full_input lang
  let (qty, fi2) :=
    match text_qty with
    | some q => (some q, fi1)
    | none =>
      match singleQtyMatch full_input with
      | some (q, rest) => (some q, stripWs rest)
      | none => (none, full_input)
  let (size, cleaned0) := extract_size fi2 lang
  let cleaned := clean_item_name cleaned0 lang
  let e := empty_entities
  let e := match qty with
           | some q => entSet e "quantity" (some (EVal.num q))
           | none => e
  let e := entSet e "item" (some (EVal.str ⟨cleaned⟩))
  entSet e "size" (size.map EVal.str)

/-- The special add_item handling of parse (lines 249-286): multi-item batch
return when splitting yields at least two items, otherwise single-item
entity extraction feeding the common return. -/
def add_item_outcome (full_input0 : List Char) (lang : String) : NLPResult :=
  let full_input := stripWs full_input0
  let batch := parse_multi_items ⟨full_input⟩
  if is_multi_item ⟨full_input⟩ && decide (batch.length ≥ 2) then
    { intent := some "add_item", lang := lang, entities := empty_entities,
      batch_items := some batch, source := "regex", confidence := 1 }
  else mkParseResult "add_item" lang (add_item_entities full_input lang)

/-- Entities for a track_order match. -/
def track_order_entities (cap : Option (List Char)) : Entities :=
  match cap with
  | some ds => entSet empty_entities "order_id" (some (EVal.str ⟨ds⟩))
  | none => empty_entities

/-- Entities for a remove_item match. -/
def remove_item_entities (item : List Char) : Entities :=
  entSet empty_entities "item" (some (EVal.str ⟨item⟩))

/-- English add_item verbs, in pattern-alternation order. -/
def add_verbs_en : List (List Char) :=
  [pat "add", pat "order", pat "i want to order", pat "i want",
   pat "get me", pat "give me"]

def add_suffixes_en : List (List Char) :=
  [pat "please", pat "thanks", pat "thank you"]

def add_verbs_ar : List (List Char) :=
  [pat "ضيف", pat "طلب", pat "عايز"]

def add_suffixes_ar : List (List Char) :=
  [pat "من فضلك", pat "شكرا"]

def welcome_en (tl : List Char) : Bool :=
  containsAny [pat "hi", pat "hello", pat "hey"] tl

def welcome_ar (tl : List Char) : Bool :=
  containsAny [pat "اهلا", pat "مرحبا", pat "هاي"] tl

def track_prefixes_en : List (List Char) :=
  [pat "track my order", pat "status of my order"]

def track_prefixes_ar : List (List Char) :=
  [pat "عايز اعرف طلبي", pat "حالة طلبي"]

def view_cart_en (tl : List Char) : Bool :=
  containsAny (altConcat [["show", "view", "what", "see"], [" "],
    ["my ", ""], ["cart"]]) tl ||
  containsAny (altConcat [["what", "how much", "what\x27s"], [" "],
    ["is ", ""], ["the ", "my ", ""], ["total"]]) tl ||
  containsAny (altConcat [["how much", "what"], [" "],
    ["do ", "did ", ""], ["i "], ["order", "have", "spend"]]) tl ||
  containsAny (altConcat [["what\x27s", "show"], [" "],
    ["my ", ""], ["order", "price"]]) tl

def view_cart_ar (tl : List Char) : Bool :=
  containsAny (altConcat [["اعرض", "شف"], [" "], ["سلة ", ""], ["الطلب"]]) tl ||
  containsSub (pat "كام في السلة") tl ||
  containsAny (altConcat [["كام", "إيه", "ايه"], [" "], ["المجموع", "السعر"]]) tl

def clear_cart_en (tl : List Char) : Bool :=
  containsAny (altConcat [["clear", "empty", "reset", "cancel"], [" "],
    ["my ", ""], ["cart"]]) tl

def clear_cart_ar (tl : List Char) : Bool :=
  containsAny (altConcat [["امسح", "فضي", "الغي"], [" "], ["السلة", "الطلب"]]) tl

def checkout_en (tl : List Char) : Bool :=
  containsAny [pat "checkout", pat "confirm", pat "place order",
    pat "pay", pat "complete"] tl

def checkout_ar (tl : List Char) : Bool :=
  containsAny [pat "ادفع", pat "اكمل", pat "اتمم الطلب", pat "قرر"] tl

def browse_menu_en (tl : List Char) : Bool :=
  containsAny [pat "what do you have", pat "show menu", pat "menu",
    pat "pizza", pat "items"] tl

def browse_menu_ar (tl : List Char) : Bool :=
  containsAny [pat "في إيه", pat "قائمة", pat "عندك إيه", pat "بيتزا"] tl

def new_order_en (tl : List Char) : Bool :=
  containsAny [pat "new order", pat "start order"] tl

def new_order_ar (tl : List Char) : Bool :=
  containsAny [pat "طلب جديد", pat "ابدأ طلب"] tl

/-- Anchored ^(yes|...)$ confirmation alternatives: whole-string match. -/
def confirmation_en (tl : List Char) : Bool :=
  [pat "yes", pat "yeah", pat "yep", pat "yup", pat "sure", pat "ok",
   pat "okay", pat "correct", pat "right", pat "fine", pat "alright",
   pat "sounds good", pat "that\x27s right"].contains tl

def confirmation_ar (tl : List Char) : Bool :=
  [pat "نعم", pat "ايوة", pat "ماشي", pat "تمام", pat "صح"].contains tl

def rejection_en (tl : List Char) : Bool :=
  [pat "no", pat "nope", pat "nah", pat "not really", pat "incorrect",
   pat "wrong", pat "cancel that"].contains tl

def rejection_ar (tl : List Char) : Bool :=
  [pat "لا", pat "مش صح", pat "غلط"].contains tl

/-- The English patterns of the table, tried in registration order. -/
def parse_en (tl : List Char) : Option NLPResult :=
  if welcome_en tl then some (mkParseResult "welcome" "en" empty_entities)
  else
    match track_order_search track_prefixes_en tl with
    | some cap => some (mkParseResult "track_order" "en" (track_order_entities cap))
    | none =>
      match add_item_search add_verbs_en true add_suffixes_en tl with
      | some fi => some (add_item_outcome fi "en")
      | none =>
        match remove_search [pat "remove", pat "delete", pat "cancel"] true tl with
        | some item => some (mkParseResult "remove_item" "en" (remove_item_entities item))
        | none =>
          if view_cart_en tl then some (mkParseResult "view_cart" "en" empty_entities)
          else if clear_cart_en tl then some (mkParseResult "clear_cart" "en" empty_entities)
          else if checkout_en tl then some (mkParseResult "checkout" "en" empty_entities)
          else if browse_menu_en tl then some (mkParseResult "browse_menu" "en" empty_entities)
          else if new_order_en tl then some (mkParseResult "new_order" "en" empty_entities)
          else if confirmation_en tl then some (mkParseResult "confirmation" "en" empty_entities)
          else if rejection_en tl then some (mkParseResult "rejection" "en" empty_entities)
          else none

/-- The Arabic patterns of the table, tried in registration order. -/
def parse_ar (tl : List Char) : Option NLPResult :=
  if welcome_ar tl then some (mkParseResult "welcome" "ar" empty_entities)
  else
    match track_order_search track_prefixes_ar tl with
    | some cap => some (mkParseResult "track_order" "ar" (track_order_entities cap))
    | none =>
      match add_item_search add_verbs_ar false add_suffixes_ar tl with
      | some fi => some (add_item_outcome fi "ar")
      | none =>
        match remove_search [pat "شيل", pat "احذف"] false tl with
        | some item => some (mkParseResult "remove_item" "ar" (remove_item_entities item))
        | none =>
          if view_cart_ar tl then some (mkParseResult "view_cart" "ar" empty_entities)
          else if clear_cart_ar tl then some (mkParseResult "clear_cart" "ar" empty_entities)
          else if checkout_ar tl then some (mkParseResult "checkout" "ar" empty_entities)
          else if browse_menu_ar tl then some (mkParseResult "browse_menu" "ar" empty_entities)
          else if new_order_ar tl then some (mkParseResult "new_order" "ar" empty_entities)
          else if confirmation_ar tl then some (mkParseResult "confirmation" "ar" empty_entities)
          else if rejection_ar tl then some (mkParseResult "rejection" "ar" empty_entities)
          else none

/-- RegexNLPService.parse: lowercase, detect language, try only the
same-language patterns in table order; first match wins. -/
def regex_parse (text : String) : Option NLPResult :=
  let text_lower := lowerL text.data
  let lang := detect_lang text_lower
  if lang == "ar" then parse_ar text_lower else parse_en text_lower

/-! ## HybridNLPService (app/nlp/HybridNLPService.py) -/

/-- The dict returned by the fallback provider's extract_intent: keys may be
absent, hence the Option fields with .get defaults applied by the caller. -/
structure LLMExtractResult where
  intent : Option String
  entities : Option Entities
  confidence : Option ℚ

/-- The fallback extraction boundary: (text, lang) to a result, or an
exception, embedded as Except. -/
def ProviderExtract := String → String → Except String LLMExtractResult

/-- HybridNLPService.parse: regex first; with no provider, the source "none"
degradation; on provider failure, the source "error" degradation; otherwise
the standardized source "llm" wrap. -/
def hybrid_parse (llm_provider : Option ProviderExtract) (text : String) :
    NLPResult :=
  match regex_parse text with
  | some regex_result => regex_result
  | none =>
    match llm_provider with
    | none =>
      { intent := none, lang := detect_lang text.data, entities := [],
        batch_items := none, source := "none", confidence := 0 }
    | some p =>
      let detected_lang := detect_lang text.data
      match p text detected_lang with
      | Except.ok llm_result =>
        { intent := llm_result.intent, lang := detected_lang,
          entities := llm_result.entities.getD [], batch_items := none,
          source := "llm", confidence := llm_result.confidence.getD (1 / 2) }
      | Except.error _ =>
        { intent := none, lang := detected_lang, entities := [],
          batch_items := none, source := "error", confidence := 0 }

/-! ## Conversation context and handler results
(app/core/conversation_context.py, handler result dicts) -/

/-- One line of a placed order in the checkout handler result. -/
structure OrderLine where
  name : String
  size : String
  quantity : Nat
  subtotal : Nat
deriving DecidableEq

/-- The item_added payload of a successful confirmation. -/
structure AddedItem where
  name : String
  size : Option String
  quantity : Nat
deriving DecidableEq

/-- A conversation history message. -/
structure HistMessage where
  role : String
  content : String
deriving DecidableEq

/-- One cart line of the current cart snapshot. -/
structure CartLine where
  item_name : String
  size : String
  quantity : Nat
deriving DecidableEq

/-- The cart snapshot dict {items, total}. -/
structure Cart where
  items : List CartLine := []
  total : Nat := 0
deriving DecidableEq

/-- A pending suggestion stored in user_data (suggestion_service shape:
type/item/size/quantity/created_at; created_at in seconds). -/
structure PendingSuggestion where
  ptype : String
  item : String
  size : Option String
  quantity : Option Nat
  created_at : Option Nat
deriving DecidableEq

/-- The user_data session dict (the part the dialogue engine reads). -/
structure UserData where
  pending_suggestion : Option PendingSuggestion := none
deriving DecidableEq

/-- A handler result dict; absent keys are the defaults (Python .get
falsiness). -/
structure HandlerResult where
  success : Bool := false
  message : Option String := none
  error : Option String := none
  clarification_needed : Bool := false
  missing_fields : List String := []
  fallback_to_llm : Bool := false
  items : List OrderLine := []
  total_price : Option Nat := none
  order_id : Option Nat := none
  item_added : Option AddedItem := none
deriving DecidableEq

/-- ConversationContext (the dataclass travelling through the pipeline);
batch_items is the dynamically attached attribute, [] when absent. -/
structure ConversationContext where
  user_id : Nat
  user_message : String
  detected_language : String := "en"
  intent : Option String := none
  entities : Entities := []
  nlp_source : String := "none"
  nlp_confidence : ℚ := 1
  batch_items : List BatchItem := []
  conversation_history : List HistMessage := []
  user_data : UserData := {}
  current_cart : Cart := {}
  handler_executed : Bool := false
  handler_name : Option String := none
  handler_result : HandlerResult := {}
  bot_response : Option String := none
deriving DecidableEq

/-- Python truthiness of context.intent (None and "" are falsy). -/
def intentTruthy (ctx : ConversationContext) : Bool :=
  match ctx.intent with
  | some s => !(s == "")
  | none => false

/-- Python str() of an optional string (None prints as "None"). -/
def showOptStr : Option String → String
  | some s => s
  | none => "None"

/-- Python str() of an optional number (None prints as "None"). -/
def showOptNat : Option Nat → String
  | some n => toString n
  | none => "None"

/-! ## Handler capability predicates and IntentRouter
(app/handlers, app/core/intent_router.py) -/

/-- BatchAddItemHandler.can_handle: two or more parsed items present. -/
def batch_add_item_can_handle (ctx : ConversationContext) : Bool :=
  decide (ctx.batch_items.length > 1)

/-- AddItemHandler.can_handle: intent add_item and an item key present. -/
def add_item_can_handle (ctx : ConversationContext) : Bool :=
  ctx.intent == some "add_item" && (entLookup ctx.entities "item").isSome

/-- Python truthiness of an entity value. -/
def evTruthy : Option EVal → Bool
  | some (EVal.str s) => !(s == "")
  | some (EVal.num n) => !(n == 0)
  | none => false

/-- RemoveItemHandler.can_handle: intent remove_item and a truthy item. -/
def remove_item_can_handle (ctx : ConversationContext) : Bool :=
  ctx.intent == some "remove_item" &&
    (match entLookup ctx.entities "item" with
     | some v => evTruthy v
     | none => false)

/-- GetCartHandler.can_handle. -/
def view_cart_can_handle (ctx : ConversationContext) : Bool :=
  ctx.intent == some "view_cart"

/-- CheckoutHandler.can_handle: checkout with a nonempty cart snapshot. -/
def checkout_can_handle (ctx : ConversationContext) : Bool :=
  ctx.intent == some "checkout" && decide (ctx.current_cart.items.length > 0)

/-- BrowseMenuHandler.can_handle. -/
def browse_menu_can_handle (ctx : ConversationContext) : Bool :=
  ctx.intent == some "browse_menu" || ctx.intent == some "item_info" ||
    ctx.intent == some "get_price"

/-- ClearCartHandler.can_handle. -/
def clear_cart_can_handle (ctx : ConversationContext) : Bool :=
  ctx.intent == some "clear_cart"

/-- ConfirmationHandler.can_handle. -/
def confirmation_can_handle (ctx : ConversationContext) : Bool :=
  ctx.intent == some "confirmation"

/-- RejectionHandler.can_handle. -/
def rejection_can_handle (ctx : ConversationContext) : Bool :=
  ctx.intent == some "rejection"

/-- A registered handler: name plus capability predicate. -/
structure HandlerSpec where
  name : String
  can_handle : ConversationContext → Bool

/-- The IntentRouter registration list, in source order (BatchAddItemHandler
deliberately before AddItemHandler). -/
def router_handlers : List HandlerSpec :=
  [⟨"batch_add_item", batch_add_item_can_handle⟩,
   ⟨"add_item", add_item_can_handle⟩,
   ⟨"remove_item", remove_item_can_handle⟩,
   ⟨"view_cart", view_cart_can_handle⟩,
   ⟨"checkout", checkout_can_handle⟩,
   ⟨"browse_menu", browse_menu_can_handle⟩,
   ⟨"clear_cart", clear_cart_can_handle⟩,
   ⟨"confirmation", confirmation_can_handle⟩,
   ⟨"rejection", rejection_can_handle⟩]

/-- IntentRouter.route: None for a falsy intent, else the first handler whose
can_handle accepts the context. -/
def route (ctx : ConversationContext) : Option HandlerSpec :=
  if !intentTruthy ctx then none
  else router_handlers.find? (fun h => h.can_handle ctx)

/-- IntentRouter.execute, with each handler's handle embedded as a function
chosen by handler name. -/
def router_execute (impl : String → ConversationContext → ConversationContext)
    (ctx : ConversationContext) : ConversationContext :=
  match route ctx with
  | some h =>
    let c := impl h.name ctx
    { c with handler_name := some h.name, handler_executed := true }
  | none =>
    { ctx with handler_result :=
        { error := some ("No handler found for intent: " ++ showOptStr ctx.intent) } }

/-! ## ConversationOrchestrator (app/core/conversation_orchestrator.py) -/

/-- The external clarification-question generator (DB-backed size listing),
signature of ClarificationService.generate_clarification_question. -/
def QuestionGen :=
  String → Entities → List String → String → Cart → String

/-- ConversationOrchestrator._execute_handler: clarification check (skipped
for batch contexts), short-circuit on a needed clarification, else routing,
cart refresh after item mutations, and the no-handler fallback result. -/
def execute_handler (gen_question : QuestionGen)
    (impl : String → ConversationContext → ConversationContext)
    (get_cart : Nat → Option Cart)
    (ctx : ConversationContext) : ConversationContext :=
  let proceed : ConversationContext → ConversationContext := fun c0 =>
    let c := router_execute impl c0
    let c :=
      if (c.intent == some "add_item" || c.intent == some "remove_item") &&
          c.handler_executed then
        { c with current_cart := (get_cart c.user_id).getD {} }
      else c
    if !c.handler_executed then
      { c with handler_result :=
          { error := some ("No handler for intent: " ++ showOptStr c.intent),
            fallback_to_llm := true } }
    else c
  if intentTruthy ctx then
    let has_batch := !ctx.batch_items.isEmpty
    if !has_batch then
      match needs_clarification (ctx.intent.getD "") ctx.entities with
      | (true, missing_fields) =>
        { ctx with
            bot_response := some (gen_question (ctx.intent.getD "") ctx.entities
              missing_fields ctx.detected_language ctx.current_cart),
            handler_executed := false,
            handler_result :=
              { clarification_needed := true, missing_fields := missing_fields } }
      | (false, _) => proceed ctx
    else proceed ctx
  else proceed ctx

/-- Outcome of the generative provider's generate_response call: a string
value, a non-string value, or a raised exception. -/
inductive GenOutcome where
  | val (s : String)
  | notStr
  | exn

/-- The generative reply boundary: (text, context blob, lang) to an outcome. -/
def GenProvider := String → String → String → GenOutcome

/-- The recommendation engine boundary (get_recommendations with max_items=2,
and format_recommendations_text). -/
structure RecEngine where
  get_recs : Nat → Cart → List String
  format_text : List String → String → String

/-- ConversationContext.get_history_text: the last 10 messages, one per line. -/
def get_history_text (ctx : ConversationContext) : String :=
  if ctx.conversation_history.isEmpty then ""
  else
    let recent := ctx.conversation_history.drop (ctx.conversation_history.length - 10)
    recent.foldl (fun acc m => acc ++ m.role ++ ": " ++ m.content ++ "\n") ""

/-- Deterministic rendering of a handler result (str/json.dumps of the dict
in the prompt blob). -/
def renderHandlerResult (hr : HandlerResult) : String :=
  "success=" ++ toString hr.success ++
  "; message=" ++ showOptStr hr.message ++
  "; error=" ++ showOptStr hr.error ++
  "; clarification_needed=" ++ toString hr.clarification_needed ++
  "; missing_fields=" ++ String.intercalate "," hr.missing_fields ++
  "; fallback_to_llm=" ++ toString hr.fallback_to_llm ++
  "; items=" ++ String.intercalate "," (hr.items.map (fun it =>
      it.name ++ "/" ++ it.size ++ "/" ++ toString it.quantity ++ "/" ++
      toString it.subtotal)) ++
  "; total_price=" ++ showOptNat hr.total_price ++
  "; order_id=" ++ showOptNat hr.order_id

/-- Deterministic rendering of the cart snapshot in the prompt blob. -/
def renderCart (cart : Cart) : String :=
  String.intercalate ","
    (cart.items.map (fun it => it.item_name ++ "/" ++ it.size ++ "/" ++
      toString it.quantity)) ++ "; total=" ++ toString cart.total

/-- The llm_context prompt blob assembled by _generate_response. -/
def build_llm_context (ctx : ConversationContext) : String :=
  let history_text := get_history_text ctx
  let handler_summary :=
    if ctx.handler_executed then
      "Handler executed: " ++ showOptStr ctx.handler_name ++ "\nResults: " ++
        renderHandlerResult ctx.handler_result
    else "No specific handler for intent: " ++ showOptStr ctx.intent
  "Conversation History:\n" ++ history_text ++
  "\n\nUser\x27s current message: " ++ ctx.user_message ++
  "\n\nHandler Information:\n" ++ handler_summary ++
  "\n\nCRITICAL - ACTUAL DATA (do not modify or guess):\nHandler Result: " ++
  renderHandlerResult ctx.handler_result ++
  "\n\nCurrent cart: " ++ renderCart ctx.current_cart ++
  "\n\nInstructions:\n1. For orders/checkout: Use EXACT quantities, prices, and items from handler_result\n2. Never guess or change numerical values\n3. Be natural but accurate\n4. Keep it concise (1-2 sentences)\n\nPlease provide a natural, friendly response based ONLY on the actual data above."

/-- The structured checkout reply (FIX #1): item lines, total and order id
taken verbatim from the handler result. -/
def checkout_reply (hr : HandlerResult) : String :=
  let items_summary := hr.items.map (fun it =>
    "• " ++ toString it.quantity ++ "x " ++ it.size ++ " " ++ it.name ++
      " - ₹" ++ toString it.subtotal)
  let order_summary := String.intercalate "\n" items_summary
  "✅ Order placed successfully!\n\n" ++ order_summary ++
  "\n\n💰 Total: ₹" ++ showOptNat hr.total_price ++
  "\n📦 Order ID: #" ++ showOptNat hr.order_id ++
  "\n\nYour delicious pizza will be ready in 30-40 minutes. Thank you for your order! 🍕"

/-- Append recommendation text to a just-set reply, guarding for an empty
base reply as the source does. -/
def append_recs (re : RecEngine) (ctx : ConversationContext) (base : String) :
    String :=
  let recommendations := re.get_recs ctx.user_id ctx.current_cart
  if !recommendations.isEmpty then
    let rec_text := re.format_text recommendations ctx.detected_language
    if !(base == "") then base ++ "\n\n" ++ rec_text else rec_text
  else base

/-- ConversationOrchestrator._generate_response: the checkout-success branch
never consults the provider; the clarification branch keeps the preset reply;
without a provider the handler message (plus add_item recommendations) or the
generic prompt is used; with a provider its valid non-empty string output is
used, falling back to the handler message, with add_item recommendations
appended on success, and the whole call degrading to the handler message or a
generic acknowledgement when the provider raises. -/
def generate_response (llm_provider : Option GenProvider) (re : RecEngine)
    (ctx : ConversationContext) : ConversationContext :=
  if ctx.intent == some "checkout" && ctx.handler_result.success then
    { ctx with bot_response := some (checkout_reply ctx.handler_result) }
  else if ctx.handler_result.clarification_needed then ctx
  else
    match llm_provider with
    | none =>
      if ctx.handler_executed && ctx.handler_result.success then
        let base := ctx.handler_result.message.getD "Request processed successfully"
        if ctx.intent == some "add_item" then
          { ctx with bot_response := some (append_recs re ctx base) }
        else { ctx with bot_response := some base }
      else
        { ctx with bot_response := some "I understand your message, but I need more specific menu commands. Try: \x27add [item] [size]\x27, \x27show cart\x27, or \x27checkout\x27" }
    | some p =>
      let llm_context := build_llm_context ctx
      match p ctx.user_message llm_context ctx.detected_language with
      | GenOutcome.exn =>
        if ctx.handler_executed && ctx.handler_result.success then
          { ctx with bot_response := some (ctx.handler_result.message.getD "Request processed") }
        else
          { ctx with bot_response := some "I processed your request. Please let me know if you need anything else." }
      | outcome =>
        let base :=
          match outcome with
          | GenOutcome.val s =>
            if !(s == "") then s else ctx.handler_result.message.getD "Request processed"
          | _ => ctx.handler_result.message.getD "Request processed"
        if ctx.intent == some "add_item" && ctx.handler_result.success then
          { ctx with bot_response := some (append_recs re ctx base) }
        else { ctx with bot_response := some base }

/-! ## ConfirmationHandler and RejectionHandler
(app/handlers/confirmation_handler.py) -/

/-- One size option of a menu item as returned by menu search. -/
structure SizeOption where
  size : String
  menu_size_id : Nat
deriving DecidableEq

/-- A menu item as returned by MenuService.search_items. -/
structure MenuItemData where
  sizes : List SizeOption
deriving DecidableEq

/-- The menu search boundary (MenuService.search_items). -/
def MenuSearch := String → List MenuItemData

/-- The cart add result dict. -/
structure CartAddResult where
  success : Bool := false
  message : Option String := none
deriving DecidableEq

/-- The cart mutation boundary (CartService.add_item): user, menu size id,
quantity. -/
def CartAdd := Nat → Nat → Nat → CartAddResult

/-- The cart read boundary (CartService.view_cart). -/
def CartView := Nat → Cart

/-- Python truthiness of the pending size value. -/
def sizeTruthy : Option String → Bool
  | some s => !(s == "")
  | none => false

/-- The size-matching loop: first option equal to the requested truthy size,
or the first REG option when no truthy size was requested. -/
def resolve_size_loop (size : Option String) : List SizeOption → Option Nat
  | [] => none
  | so :: rest =>
    if sizeTruthy size && so.size == size.getD "" then some so.menu_size_id
    else if !sizeTruthy size && so.size == "REG" then some so.menu_size_id
    else resolve_size_loop size rest

/-- Python falsiness of the menu_size_id variable (None or 0). -/
def sizeIdFalsy : Option Nat → Bool
  | none => true
  | some n => n == 0

/-- The loop result plus the first-available-size fallback, returning the
final menu_size_id variable and the possibly overwritten size variable. -/
def resolve_size_final (size : Option String) (sizes : List SizeOption) :
    Option Nat × Option String :=
  let m0 := resolve_size_loop size sizes
  if sizeIdFalsy m0 then
    match sizes with
    | s0 :: _ => (some s0.menu_size_id, some s0.size)
    | [] => (m0, size)
  else (m0, size)

/-- ConfirmationHandler._handle_add_item_confirmation. -/
def handle_add_item_confirmation (menu_search : MenuSearch)
    (cart_add : CartAdd) (cart_view : CartView)
    (ctx : ConversationContext) (pending : PendingSuggestion) :
    ConversationContext :=
  let item_name := pending.item
  let quantity := pending.quantity.getD 1
  match menu_search item_name with
  | [] =>
    { ctx with handler_result :=
        { success := false,
          message := some ("Sorry, I couldn\x27t find \x27" ++ item_name ++
            "\x27 in our menu anymore.") } }
  | menu_item :: _ =>
    let (menu_size_id, size) := resolve_size_final pending.size menu_item.sizes
    if sizeIdFalsy menu_size_id then
      { ctx with handler_result :=
          { success := false,
            message := some ("Sorry, I couldn\x27t find the right size for " ++
              item_name ++ ".") } }
    else
      let result := cart_add ctx.user_id (menu_size_id.getD 0) quantity
      if result.success then
        { ctx with
            user_data := { ctx.user_data with pending_suggestion := none },
            current_cart := cart_view ctx.user_id,
            handler_result :=
              { success := true,
                message := some ("✅ Added " ++ toString quantity ++ "x " ++
                  showOptStr size ++ " " ++ item_name ++ " to your cart!"),
                item_added := some
                  { name := item_name, size := size, quantity := quantity } } }
      else
        { ctx with handler_result :=
            { success := false,
              message := some (result.message.getD "Failed to add item to cart") } }

/-- The expiry test: suggestion older than 5 minutes at resolution time. -/
def suggestion_expired (now : Nat) (pending : PendingSuggestion) : Bool :=
  match pending.created_at with
  | some t => decide (now - t > 300)
  | none => false

/-- ConfirmationHandler.handle: nothing to confirm, lazy expiry discard, the
add_item resolution, or the unknown-type refusal. -/
def confirmation_handle (now : Nat) (menu_search : MenuSearch)
    (cart_add : CartAdd) (cart_view : CartView)
    (ctx : ConversationContext) : ConversationContext :=
  match ctx.user_data.pending_suggestion with
  | none =>
    { ctx with handler_result :=
        { success := false,
          message := some "I\x27m not sure what you\x27re confirming. Could you please be more specific?" } }
  | some pending =>
    if suggestion_expired now pending then
      { ctx with
          handler_result :=
            { success := false,
              message := some "That suggestion has expired. What would you like to order?" },
          user_data := { ctx.user_data with pending_suggestion := none } }
    else if pending.ptype == "add_item" then
      handle_add_item_confirmation menu_search cart_add cart_view ctx pending
    else
      { ctx with handler_result :=
          { success := false,
            message := some "I couldn\x27t process that confirmation." } }

/-- RejectionHandler.handle: clear any pending suggestion and prompt anew. -/
def rejection_handle (ctx : ConversationContext) : ConversationContext :=
  let had_pending := ctx.user_data.pending_suggestion.isSome
  let ctx := { ctx with user_data := { ctx.user_data with pending_suggestion := none } }
  if had_pending then
    { ctx with handler_result :=
        { success := true,
          message := some "No problem! What would you like to order instead?" } }
  else
    { ctx with handler_result :=
        { success := true, message := some "Okay! How can I help you?" } }

/-! ## Theorems -/

/-- Both branches of the special add_item handling carry the pattern-match
tagging. -/
theorem add_item_outcome_tagging (fi : List Char) (lang : String) :
    (add_item_outcome fi lang).confidence = 1 ∧
    (add_item_outcome fi lang).source = "regex" := by
  unfold add_item_outcome
  dsimp only
  split <;> exact ⟨rfl, rfl⟩

/-- Claim C1 (amended): every result returned by the Pattern Matcher
(RegexNLPService.parse) has confidence 1.0; its extraction source tag is the
literal "regex" (not "pattern", which is the spec's name for this source). -/
theorem c1_pattern_match_tagging (t : String) (r : NLPResult)
    (h : regex_parse t = some r) : r.confidence = 1 ∧ r.source = "regex" := by
  unfold regex_parse at h
  dsimp only at h
  split at h
  · unfold parse_ar at h
    repeat' split at h
    all_goals
      first
        | exact Option.noConfusion h
        | (injection h with h2; subst h2;
           first
             | exact ⟨rfl, rfl⟩
             | exact add_item_outcome_tagging _ _)
  · unfold parse_en at h
    repeat' split at h
    all_goals
      first
        | exact Option.noConfusion h
        | (injection h with h2; subst h2;
           first
             | exact ⟨rfl, rfl⟩
             | exact add_item_outcome_tagging _ _)

/-- Claim C1, witness: the pattern-matched input "hi" instantiates the
tagging theorem. -/
theorem c1_pattern_match_tagging_witness :
    (mkParseResult "welcome" "en" empty_entities).confidence = 1 ∧
    (mkParseResult "welcome" "en" empty_entities).source = "regex" :=
  c1_pattern_match_tagging "hi" (mkParseResult "welcome" "en" empty_entities)
    (by decide)

/-- Claim C1, counterexample to the claim as stated: "hi" is pattern-matched
and its extraction source tag is "regex", not "pattern". -/
theorem c1_pattern_match_tagging_counterexample :
    (regex_parse "hi").map NLPResult.source = some "regex" ∧
    (regex_parse "hi").map NLPResult.source ≠ some "pattern" := by
  exact ⟨by decide, by decide⟩

/-- Claim C7: when the Pattern Matcher finds nothing, the Hybrid Extractor
never raises past its boundary: with no fallback provider it returns
intent none / empty entities / confidence 0 / source "none"; when the
provider call raises, it returns intent none / empty entities /
confidence 0 / source "error". -/
theorem c7_hybrid_degradation (text : String)
    (h : regex_parse text = none) :
    hybrid_parse none text =
      { intent := none, lang := detect_lang text.data, entities := [],
        batch_items := none, source := "none", confidence := 0 } ∧
    (∀ (p : ProviderExtract) (e : String),
        p text (detect_lang text.data) = Except.error e →
        hybrid_parse (some p) text =
          { intent := none, lang := detect_lang text.data, entities := [],
            batch_items := none, source := "error", confidence := 0 }) := by
  constructor
  · unfold hybrid_parse
    rw [h]
  · intro p e hp
    unfold hybrid_parse
    rw [h]
    dsimp only
    rw [hp]

/-- Claim C7, witness: the unmatched input "zzz" with a provider that
raises. -/
theorem c7_hybrid_degradation_witness :
    hybrid_parse none "zzz" =
      { intent := none, lang := "en", entities := [],
        batch_items := none, source := "none", confidence := 0 } ∧
    hybrid_parse (some (fun _ _ => Except.error "boom")) "zzz" =
      { intent := none, lang := "en", entities := [],
        batch_items := none, source := "error", confidence := 0 } := by
  have h := c7_hybrid_degradation "zzz" (by decide)
  exact ⟨h.1, h.2 (fun _ _ => Except.error "boom") "boom" rfl⟩

/-- Claim C8: the item texts "1 fries 2 cola" and "fries and cola" are
detected as multi-item and split into two parsed items (quantities 1 and 2,
respectively 1 and 1); "1 large pizza" is not multi-item and parses as a
single item (one item entity, no batch). -/
theorem c8_multi_item_examples :
    is_multi_item "1 fries 2 cola" = true ∧
    parse_multi_items "1 fries 2 cola" =
      [{ item := "fries", quantity := 1, size := none },
       { item := "cola", quantity := 2, size := none }] ∧
    is_multi_item "fries and cola" = true ∧
    parse_multi_items "fries and cola" =
      [{ item := "fries", quantity := 1, size := none },
       { item := "cola", quantity := 1, size := none }] ∧
    is_multi_item "1 large pizza" = false ∧
    regex_parse "add 1 large pizza" =
      some { intent := some "add_item", lang := "en",
             entities := [("item", some (EVal.str "pizza")),
                          ("size", some (EVal.str "L")),
                          ("quantity", some (EVal.num 1)),
                          ("order_id", none), ("address", none), ("phone", none)],
             batch_items := none, source := "regex", confidence := 1 } := by
  refine ⟨by decide, by decide, by decide, by decide, by decide, by decide⟩

/-- Claim C9: needs_clarification(intent, entities) returns (false, []) iff
every required field computed for that intent and entities is present with a
non-null value; and its missing-field list is exactly the required fields
that are absent or null, with the flag true exactly when that list is
nonempty. -/
theorem c9_needs_clarification_roundtrip (intent : String) (e : Entities) :
    (needs_clarification intent e = (false, []) ↔
      ∀ f ∈ get_required_fields intent e, entHasValue e f = true) ∧
    (needs_clarification intent e).2 =
      (get_required_fields intent e).filter (fun f => fieldMissing e f) ∧
    ((needs_clarification intent e).1 = true ↔
      (needs_clarification intent e).2 ≠ []) := by
  refine ⟨?_, rfl, ?_⟩
  · unfold needs_clarification
    dsimp only
    constructor
    · intro h f hf
      have h2 : (get_required_fields intent e).filter
          (fun f => fieldMissing e f) = [] := congrArg Prod.snd h
      have h3 := List.filter_eq_nil_iff.mp h2 f hf
      simpa [fieldMissing] using h3
    · intro hAll
      have h2 : (get_required_fields intent e).filter
          (fun f => fieldMissing e f) = [] :=
        List.filter_eq_nil_iff.mpr (fun f hf => by simp [fieldMissing, hAll f hf])
      simp [h2]
  · unfold needs_clarification
    dsimp only
    simp [List.length_pos]

/-- Claim C9, witness: "fries" is a simple addition, so an item alone
suffices; "margherita pizza" also requires a size, reported missing. -/
theorem c9_needs_clarification_roundtrip_witness :
    needs_clarification "add_item" [("item", some (EVal.str "fries"))] =
      (false, []) ∧
    (needs_clarification "add_item"
      [("item", some (EVal.str "margherita pizza"))]).2 =
      ["size"] ∧
    (needs_clarification "add_item"
      [("item", some (EVal.str "margherita pizza"))]).1 = true := by
  refine ⟨?_, ?_, ?_⟩
  · exact (c9_needs_clarification_roundtrip "add_item"
      [("item", some (EVal.str "fries"))]).1.mpr (by decide)
  · have h := (c9_needs_clarification_roundtrip "add_item"
      [("item", some (EVal.str "margherita pizza"))]).2.1
    rw [h]; decide
  · have h := (c9_needs_clarification_roundtrip "add_item"
      [("item", some (EVal.str "margherita pizza"))]).2.2
    rw [h]; decide

/-- Claim C5: whenever the context carries two or more parsed batch items,
route() selects the batch-capable handler (whose predicate is registered
before the single-item predicate) and never the single-item add handler. -/
theorem c5_batch_handler_priority (ctx : ConversationContext)
    (h2 : 2 ≤ ctx.batch_items.length) :
    (intentTruthy ctx = true →
      (route ctx).map HandlerSpec.name = some "batch_add_item") ∧
    (route ctx).map HandlerSpec.name ≠ some "add_item" := by
  have hb : batch_add_item_can_handle ctx = true := by
    simp only [batch_add_item_can_handle, decide_eq_true_eq]
    omega
  cases hI : intentTruthy ctx with
  | false =>
    constructor
    · intro h; exact absurd h (by simp)
    · unfold route
      simp [hI]
  | true =>
    constructor
    · intro _
      unfold route router_handlers
      simp [hI, List.find?, hb]
    · unfold route router_handlers
      simp [hI, List.find?, hb]

/-- Claim C5, witness: a two-item batch context on the add_item intent. -/
theorem c5_batch_handler_priority_witness :
    (route { user_id := 1, user_message := "add 1 fries 2 cola",
             intent := some "add_item", entities := empty_entities,
             batch_items := [{ item := "fries", quantity := 1, size := none },
                             { item := "cola", quantity := 2, size := none }] }).map
        HandlerSpec.name = some "batch_add_item" :=
  (c5_batch_handler_priority _ (by decide)).1 (by decide)

/-- Claim C4: with a truthy intent and no batch, a needed clarification
short-circuits _execute_handler: the reply is the clarification question, the
handler stays not executed, a structured clarification-needed result carries
the missing fields, and the Intent Router (and cart reload) is never invoked
(the outcome is the same for every router implementation); with a batch on
the context the clarification check is skipped entirely (the outcome is the
same for every question generator). -/
theorem c4_clarification_short_circuit :
    (∀ (q : QuestionGen)
        (impl : String → ConversationContext → ConversationContext)
        (get_cart : Nat → Option Cart) (ctx : ConversationContext)
        (i : String) (missing : List String),
        ctx.intent = some i → i ≠ "" → ctx.batch_items = [] →
        needs_clarification i ctx.entities = (true, missing) →
        execute_handler q impl get_cart ctx =
          { ctx with
              bot_response := some (q i ctx.entities missing
                ctx.detected_language ctx.current_cart),
              handler_executed := false,
              handler_result := { clarification_needed := true,
                                  missing_fields := missing } }) ∧
    (∀ (q q' : QuestionGen)
        (impl : String → ConversationContext → ConversationContext)
        (get_cart : Nat → Option Cart) (ctx : ConversationContext),
        ctx.batch_items ≠ [] →
        execute_handler q impl get_cart ctx =
          execute_handler q' impl get_cart ctx) := by
  constructor
  · intro q impl get_cart ctx i missing hi hne hbatch hneeds
    have hT : intentTruthy ctx = true := by
      simp [intentTruthy, hi, hne]
    unfold execute_handler
    rw [hT, hbatch, hi]
    simp only [List.isEmpty_nil, Bool.not_true, Bool.not_false, if_true,
      Option.getD_some]
    rw [hneeds]
  · intro q q' impl get_cart ctx hbatch
    have hB : ctx.batch_items.isEmpty = false := by
      cases hc : ctx.batch_items with
      | nil => exact absurd hc hbatch
      | cons a l => rfl
    unfold execute_handler
    rw [hB]
    cases hI : intentTruthy ctx <;> simp

/-- Claim C4, witness: "add pizza" (no size) with empty batch triggers the
size clarification and short-circuits; a two-item batch context is routed the
same way under two different question generators. -/
theorem c4_clarification_short_circuit_witness :
    execute_handler (fun _ _ _ _ _ => "What size?") (fun _ c => c)
        (fun _ => none)
        { user_id := 1, user_message := "add pizza",
          intent := some "add_item",
          entities := [("item", some (EVal.str "pizza")), ("size", none)] } =
      { user_id := 1, user_message := "add pizza",
        intent := some "add_item",
        entities := [("item", some (EVal.str "pizza")), ("size", none)],
        bot_response := some "What size?",
        handler_executed := false,
        handler_result := { clarification_needed := true,
                            missing_fields := ["size"] } } ∧
    execute_handler (fun _ _ _ _ _ => "Q1") (fun _ c => c) (fun _ => none)
        { user_id := 1, user_message := "add 1 fries 2 cola",
          intent := some "add_item", entities := empty_entities,
          batch_items := [{ item := "fries", quantity := 1, size := none },
                          { item := "cola", quantity := 2, size := none }] } =
      execute_handler (fun _ _ _ _ _ => "Q2") (fun _ c => c) (fun _ => none)
        { user_id := 1, user_message := "add 1 fries 2 cola",
          intent := some "add_item", entities := empty_entities,
          batch_items := [{ item := "fries", quantity := 1, size := none },
                          { item := "cola", quantity := 2, size := none }] } := by
  constructor
  · exact c4_clarification_short_circuit.1 _ _ _ _ "add_item" ["size"]
      rfl (by decide) rfl (by decide)
  · exact c4_clarification_short_circuit.2 _ _ _ _ _ (by decide)

/-- Claim C2, counterexample to the claim as stated: a view_cart turn with a
successful executed handler result, run with a configured generative
provider, takes the generative path — the reply is the provider's output and
not the handler's message, and changing only the provider's output changes
the reply. -/
theorem c2_deterministic_intents_counterexample :
    (generate_response (some (fun _ _ _ => GenOutcome.val "model freestyle"))
        ⟨fun _ _ => [], fun _ _ => ""⟩
        { user_id := 1, user_message := "show my cart",
          intent := some "view_cart", handler_executed := true,
          handler_name := some "view_cart",
          handler_result := { success := true,
                              message := some "Your cart: 1x L pizza" } }).bot_response
      = some "model freestyle" ∧
    (generate_response (some (fun _ _ _ => GenOutcome.val "model freestyle"))
        ⟨fun _ _ => [], fun _ _ => ""⟩
        { user_id := 1, user_message := "show my cart",
          intent := some "view_cart", handler_executed := true,
          handler_name := some "view_cart",
          handler_result := { success := true,
                              message := some "Your cart: 1x L pizza" } }).bot_response
      ≠ some "Your cart: 1x L pizza" ∧
    generate_response (some (fun _ _ _ => GenOutcome.val "reply A"))
        ⟨fun _ _ => [], fun _ _ => ""⟩
        { user_id := 1, user_message := "show my cart",
          intent := some "view_cart", handler_executed := true,
          handler_name := some "view_cart",
          handler_result := { success := true,
                              message := some "Your cart: 1x L pizza" } }
      ≠ generate_response (some (fun _ _ _ => GenOutcome.val "reply B"))
        ⟨fun _ _ => [], fun _ _ => ""⟩
        { user_id := 1, user_message := "show my cart",
          intent := some "view_cart", handler_executed := true,
          handler_name := some "view_cart",
          handler_result := { success := true,
                              message := some "Your cart: 1x L pizza" } } := by
  refine ⟨by decide, by decide, by decide⟩

/-- Claim C2 (amended): for the deterministic intents view_cart, clear_cart,
browse_menu, confirmation and rejection, the Respond stage builds the reply
directly from the handler's message field only when no generative provider is
configured (checkout-success always uses the structured summary instead);
with a provider configured, these intents take the generative path. -/
theorem c2_deterministic_intents_without_provider (re : RecEngine)
    (ctx : ConversationContext) (i : String) (m : String)
    (hi : ctx.intent = some i)
    (hset : i = "view_cart" ∨ i = "clear_cart" ∨ i = "browse_menu" ∨
      i = "confirmation" ∨ i = "rejection")
    (hclar : ctx.handler_result.clarification_needed = false)
    (hex : ctx.handler_executed = true)
    (hsucc : ctx.handler_result.success = true)
    (hmsg : ctx.handler_result.message = some m) :
    (generate_response none re ctx).bot_response = some m := by
  have hco : (ctx.intent == some "checkout") = false := by
    rcases hset with h | h | h | h | h <;> simp [hi, h]
  have had : (ctx.intent == some "add_item") = false := by
    rcases hset with h | h | h | h | h <;> simp [hi, h]
  unfold generate_response
  rw [hco, hclar, hex, hsucc, had, hmsg]
  rfl

/-- Claim C2, witness: a clear_cart turn with no provider uses the handler
message verbatim. -/
theorem c2_deterministic_intents_without_provider_witness :
    (generate_response none ⟨fun _ _ => [], fun _ _ => ""⟩
        { user_id := 1, user_message := "clear my cart",
          intent := some "clear_cart", handler_executed := true,
          handler_name := some "clear_cart",
          handler_result := { success := true,
                              message := some "🗑️ Cart cleared!" } }).bot_response
      = some "🗑️ Cart cleared!" :=
  c2_deterministic_intents_without_provider _ _ "clear_cart" _
    rfl (Or.inr (Or.inl rfl)) rfl rfl rfl rfl

/-- Claim C3: for a checkout turn with a successful handler result, the reply
is built solely from the structured handler result: any two provider /
recommendation-engine behaviors produce the identical reply, and that reply
is the structured checkout summary (item lines, total, order id) of the
handler result alone. -/
theorem c3_checkout_reply_provider_independent (ctx : ConversationContext)
    (p1 p2 : Option GenProvider) (re1 re2 : RecEngine)
    (hi : ctx.intent = some "checkout")
    (hsucc : ctx.handler_result.success = true) :
    generate_response p1 re1 ctx = generate_response p2 re2 ctx ∧
    (generate_response p1 re1 ctx).bot_response =
      some (checkout_reply ctx.handler_result) := by
  have hco : (ctx.intent == some "checkout" && ctx.handler_result.success)
      = true := by simp [hi, hsucc]
  unfold generate_response
  rw [hco]
  exact ⟨rfl, rfl⟩

/-- Claim C3, witness: a concrete successful checkout, evaluated under a
provider that answers and one that is absent, yields the same structured
summary. -/
theorem c3_checkout_reply_provider_independent_witness :
    generate_response (some (fun _ _ _ => GenOutcome.val "fabricated total: ₹9999"))
        ⟨fun _ _ => ["garlic bread"], fun _ _ => "Try garlic bread!"⟩
        { user_id := 1, user_message := "checkout",
          intent := some "checkout", handler_executed := true,
          handler_name := some "checkout",
          handler_result := { success := true,
                              message := some "Order placed",
                              items := [{ name := "margherita pizza", size := "L",
                                          quantity := 2, subtotal := 240 }],
                              total_price := some 240, order_id := some 7 } }
      = generate_response none ⟨fun _ _ => [], fun _ _ => ""⟩
        { user_id := 1, user_message := "checkout",
          intent := some "checkout", handler_executed := true,
          handler_name := some "checkout",
          handler_result := { success := true,
                              message := some "Order placed",
                              items := [{ name := "margherita pizza", size := "L",
                                          quantity := 2, subtotal := 240 }],
                              total_price := some 240, order_id := some 7 } } ∧
    (generate_response (some (fun _ _ _ => GenOutcome.val "fabricated total: ₹9999"))
        ⟨fun _ _ => ["garlic bread"], fun _ _ => "Try garlic bread!"⟩
        { user_id := 1, user_message := "checkout",
          intent := some "checkout", handler_executed := true,
          handler_name := some "checkout",
          handler_result := { success := true,
                              message := some "Order placed",
                              items := [{ name := "margherita pizza", size := "L",
                                          quantity := 2, subtotal := 240 }],
                              total_price := some 240, order_id := some 7 } }).bot_response
      = some (checkout_reply
          { success := true, message := some "Order placed",
            items := [{ name := "margherita pizza", size := "L",
                        quantity := 2, subtotal := 240 }],
            total_price := some 240, order_id := some 7 }) :=
  c3_checkout_reply_provider_independent _ _ _ _ _ rfl rfl

/-- Claim C6: on a confirmation turn whose stored pending suggestion was
created more than 5 minutes ago, the suggested action is never executed: the
handler returns success=false reporting the expiry and clears the pending
suggestion — for every menu, cart-add and cart-view behavior. -/
theorem c6_expired_suggestion_not_executed
    (now : Nat) (ms : MenuSearch) (ca : CartAdd) (cv : CartView)
    (ctx : ConversationContext) (p : PendingSuggestion) (t : Nat)
    (hp : ctx.user_data.pending_suggestion = some p)
    (ht : p.created_at = some t)
    (hexp : now - t > 300) :
    confirmation_handle now ms ca cv ctx =
      { ctx with
          handler_result :=
            { success := false,
              message := some "That suggestion has expired. What would you like to order?" },
          user_data := { ctx.user_data with pending_suggestion := none } } := by
  have he : suggestion_expired now p = true := by
    unfold suggestion_expired
    rw [ht]
    simpa using hexp
  unfold confirmation_handle
  rw [hp]
  dsimp only
  rw [he]
  rfl

/-- Claim C6, witness: a suggestion created at time 0, confirmed at time
1000, under services that would otherwise succeed. -/
theorem c6_expired_suggestion_not_executed_witness :
    confirmation_handle 1000
        (fun _ => [{ sizes := [{ size := "L", menu_size_id := 5 }] }])
        (fun _ _ _ => { success := true, message := some "added" })
        (fun _ => { items := [], total := 0 })
        { user_id := 1, user_message := "yes", intent := some "confirmation",
          user_data :=
            { pending_suggestion :=
                some { ptype := "add_item", item := "pepperoni pizza",
                       size := some "L", quantity := some 1,
                       created_at := some 0 } } } =
      { user_id := 1, user_message := "yes", intent := some "confirmation",
        user_data := { pending_suggestion := none },
        handler_result :=
          { success := false,
            message := some "That suggestion has expired. What would you like to order?" } } :=
  c6_expired_suggestion_not_executed 1000 _ _ _ _
    { ptype := "add_item", item := "pepperoni pizza", size := some "L",
      quantity := some 1, created_at := some 0 }
    0 rfl rfl (by decide)

/-- An unexpired add_item suggestion dispatches to the add-item confirmation
resolution. -/
theorem confirmation_handle_add_dispatch
    (now : Nat) (ms : MenuSearch) (ca : CartAdd) (cv : CartView)
    (ctx : ConversationContext) (p : PendingSuggestion)
    (hp : ctx.user_data.pending_suggestion = some p)
    (hne : suggestion_expired now p = false)
    (hty : p.ptype = "add_item") :
    confirmation_handle now ms ca cv ctx =
      handle_add_item_confirmation ms ca cv ctx p := by
  unfold confirmation_handle
  rw [hp]
  dsimp only
  rw [hne]
  simp [hty]

/-- Claim C10: when an unexpired pending add_item suggestion fails to
resolve — the item vanished from the menu, no usable size id results, or the
cart add does not succeed — the handler returns success=false and the pending
suggestion is left in place unchanged; a pending suggestion of any other type
is neither executed nor cleared; the suggestion is cleared (only) after a
successful cart addition. -/
theorem c10_failed_resolution_keeps_pending :
    (∀ (now : Nat) (ms : MenuSearch) (ca : CartAdd) (cv : CartView)
        (ctx : ConversationContext) (p : PendingSuggestion),
        ctx.user_data.pending_suggestion = some p →
        suggestion_expired now p = false →
        p.ptype = "add_item" →
        ms p.item = [] →
        confirmation_handle now ms ca cv ctx =
          { ctx with handler_result :=
              { success := false,
                message := some ("Sorry, I couldn\x27t find \x27" ++ p.item ++
                  "\x27 in our menu anymore.") } }) ∧
    (∀ (now : Nat) (ms : MenuSearch) (ca : CartAdd) (cv : CartView)
        (ctx : ConversationContext) (p : PendingSuggestion)
        (mi : MenuItemData) (rest : List MenuItemData),
        ctx.user_data.pending_suggestion = some p →
        suggestion_expired now p = false →
        p.ptype = "add_item" →
        ms p.item = mi :: rest →
        sizeIdFalsy (resolve_size_final p.size mi.sizes).1 = true →
        confirmation_handle now ms ca cv ctx =
          { ctx with handler_result :=
              { success := false,
                message := some ("Sorry, I couldn\x27t find the right size for " ++
                  p.item ++ ".") } }) ∧
    (∀ (now : Nat) (ms : MenuSearch) (ca : CartAdd) (cv : CartView)
        (ctx : ConversationContext) (p : PendingSuggestion)
        (mi : MenuItemData) (rest : List MenuItemData) (mo : Option String),
        ctx.user_data.pending_suggestion = some p →
        suggestion_expired now p = false →
        p.ptype = "add_item" →
        ms p.item = mi :: rest →
        sizeIdFalsy (resolve_size_final p.size mi.sizes).1 = false →
        ca ctx.user_id ((resolve_size_final p.size mi.sizes).1.getD 0)
            (p.quantity.getD 1) = { success := false, message := mo } →
        confirmation_handle now ms ca cv ctx =
          { ctx with handler_result :=
              { success := false,
                message := some (mo.getD "Failed to add item to cart") } }) ∧
    (∀ (now : Nat) (ms : MenuSearch) (ca : CartAdd) (cv : CartView)
        (ctx : ConversationContext) (p : PendingSuggestion),
        ctx.user_data.pending_suggestion = some p →
        suggestion_expired now p = false →
        p.ptype ≠ "add_item" →
        confirmation_handle now ms ca cv ctx =
          { ctx with handler_result :=
              { success := false,
                message := some "I couldn\x27t process that confirmation." } }) ∧
    (∀ (now : Nat) (ms : MenuSearch) (ca : CartAdd) (cv : CartView)
        (ctx : ConversationContext) (p : PendingSuggestion)
        (mi : MenuItemData) (rest : List MenuItemData),
        ctx.user_data.pending_suggestion = some p →
        suggestion_expired now p = false →
        p.ptype = "add_item" →
        ms p.item = mi :: rest →
        sizeIdFalsy (resolve_size_final p.size mi.sizes).1 = false →
        (ca ctx.user_id ((resolve_size_final p.size mi.sizes).1.getD 0)
            (p.quantity.getD 1)).success = true →
        (confirmation_handle now ms ca cv ctx).user_data.pending_suggestion
            = none ∧
        (confirmation_handle now ms ca cv ctx).handler_result.success
            = true) := by
  refine ⟨?_, ?_, ?_, ?_, ?_⟩
  · intro now ms ca cv ctx p hp hne hty hms
    rw [confirmation_handle_add_dispatch now ms ca cv ctx p hp hne hty]
    unfold handle_add_item_confirmation
    dsimp only
    rw [hms]
  · intro now ms ca cv ctx p mi rest hp hne hty hms hfalsy
    rw [confirmation_handle_add_dispatch now ms ca cv ctx p hp hne hty]
    unfold handle_add_item_confirmation
    dsimp only
    rw [hms]
    dsimp only
    rcases hrs : resolve_size_final p.size mi.sizes with ⟨msid, sz⟩
    rw [hrs] at hfalsy
    rw [hfalsy]
    rfl
  · intro now ms ca cv ctx p mi rest mo hp hne hty hms hok hca
    rw [confirmation_handle_add_dispatch now ms ca cv ctx p hp hne hty]
    unfold handle_add_item_confirmation
    dsimp only
    rw [hms]
    dsimp only
    rcases hrs : resolve_size_final p.size mi.sizes with ⟨msid, sz⟩
    rw [hrs] at hok hca
    rw [hok, hca]
    rfl
  · intro now ms ca cv ctx p hp hne hty
    unfold confirmation_handle
    rw [hp]
    dsimp only
    rw [hne]
    simp [hty]
  · intro now ms ca cv ctx p mi rest hp hne hty hms hok hsucc
    rw [confirmation_handle_add_dispatch now ms ca cv ctx p hp hne hty]
    unfold handle_add_item_confirmation
    dsimp only
    rw [hms]
    dsimp only
    rcases hrs : resolve_size_final p.size mi.sizes with ⟨msid, sz⟩
    rw [hrs] at hok hsucc
    rw [hok, hsucc]
    exact ⟨rfl, rfl⟩

/-- Claim C10, witness: each failure mode at a concrete unexpired suggestion
for "cola" (menu miss, no usable size, failed cart add, foreign type), plus
the clearing on a successful add. -/
theorem c10_failed_resolution_keeps_pending_witness :
    confirmation_handle 10 (fun _ => [])
        (fun _ _ _ => { success := true, message := some "ok" }) (fun _ => {})
        { user_id := 1, user_message := "yes", intent := some "confirmation",
          user_data :=
            { pending_suggestion :=
                some { ptype := "add_item", item := "cola", size := none,
                       quantity := some 1, created_at := none } } } =
      { user_id := 1, user_message := "yes", intent := some "confirmation",
        user_data :=
          { pending_suggestion :=
              some { ptype := "add_item", item := "cola", size := none,
                     quantity := some 1, created_at := none } },
        handler_result :=
          { success := false,
            message := some ("Sorry, I couldn\x27t find \x27" ++ "cola" ++
              "\x27 in our menu anymore.") } } ∧
    confirmation_handle 10 (fun _ => [{ sizes := [] }])
        (fun _ _ _ => { success := true, message := some "ok" }) (fun _ => {})
        { user_id := 1, user_message := "yes", intent := some "confirmation",
          user_data :=
            { pending_suggestion :=
                some { ptype := "add_item", item := "cola", size := none,
                       quantity := some 1, created_at := none } } } =
      { user_id := 1, user_message := "yes", intent := some "confirmation",
        user_data :=
          { pending_suggestion :=
              some { ptype := "add_item", item := "cola", size := none,
                     quantity := some 1, created_at := none } },
        handler_result :=
          { success := false,
            message := some ("Sorry, I couldn\x27t find the right size for " ++
              "cola" ++ ".") } } ∧
    confirmation_handle 10
        (fun _ => [{ sizes := [{ size := "REG", menu_size_id := 5 }] }])
        (fun _ _ _ => { success := false, message := some "Item out of stock" })
        (fun _ => {})
        { user_id := 1, user_message := "yes", intent := some "confirmation",
          user_data :=
            { pending_suggestion :=
                some { ptype := "add_item", item := "cola", size := none,
                       quantity := some 1, created_at := none } } } =
      { user_id := 1, user_message := "yes", intent := some "confirmation",
        user_data :=
          { pending_suggestion :=
              some { ptype := "add_item", item := "cola", size := none,
                     quantity := some 1, created_at := none } },
        handler_result :=
          { success := false,
            message := some ((some "Item out of stock").getD
              "Failed to add item to cart") } } ∧
    confirmation_handle 10 (fun _ => [])
        (fun _ _ _ => { success := true, message := some "ok" }) (fun _ => {})
        { user_id := 1, user_message := "yes", intent := some "confirmation",
          user_data :=
            { pending_suggestion :=
                some { ptype := "remove_item", item := "cola", size := none,
                       quantity := some 1, created_at := none } } } =
      { user_id := 1, user_message := "yes", intent := some "confirmation",
        user_data :=
          { pending_suggestion :=
              some { ptype := "remove_item", item := "cola", size := none,
                     quantity := some 1, created_at := none } },
        handler_result :=
          { success := false,
            message := some "I couldn\x27t process that confirmation." } } ∧
    ((confirmation_handle 10
        (fun _ => [{ sizes := [{ size := "REG", menu_size_id := 5 }] }])
        (fun _ _ _ => { success := true, message := some "ok" }) (fun _ => {})
        { user_id := 1, user_message := "yes", intent := some "confirmation",
          user_data :=
            { pending_suggestion :=
                some { ptype := "add_item", item := "cola", size := none,
                       quantity := some 1, created_at := none } } }).user_data.pending_suggestion
        = none ∧
     (confirmation_handle 10
        (fun _ => [{ sizes := [{ size := "REG", menu_size_id := 5 }] }])
        (fun _ _ _ => { success := true, message := some "ok" }) (fun _ => {})
        { user_id := 1, user_message := "yes", intent := some "confirmation",
          user_data :=
            { pending_suggestion :=
                some { ptype := "add_item", item := "cola", size := none,
                       quantity := some 1, created_at := none } } }).handler_result.success
        = true) := by
  refine ⟨?_, ?_, ?_, ?_, ?_⟩
  · exact c10_failed_resolution_keeps_pending.1 10 _ _ _ _
      { ptype := "add_item", item := "cola", size := none,
        quantity := some 1, created_at := none } rfl rfl rfl rfl
  · exact c10_failed_resolution_keeps_pending.2.1 10 _ _ _ _
      { ptype := "add_item", item := "cola", size := none,
        quantity := some 1, created_at := none } { sizes := [] } [] rfl rfl rfl rfl (by decide)
  · exact c10_failed_resolution_keeps_pending.2.2.1 10 _ _ _ _
      { ptype := "add_item", item := "cola", size := none,
        quantity := some 1, created_at := none } { sizes := [{ size := "REG", menu_size_id := 5 }] } []
      (some "Item out of stock") rfl rfl rfl rfl (by decide) rfl
  · exact c10_failed_resolution_keeps_pending.2.2.2.1 10 _ _ _ _
      { ptype := "remove_item", item := "cola", size := none,
        quantity := some 1, created_at := none } rfl rfl (by decide)
  · exact c10_failed_resolution_keeps_pending.2.2.2.2 10 _ _ _ _
      { ptype := "add_item", item := "cola", size := none,
        quantity := some 1, created_at := none } { sizes := [{ size := "REG", menu_size_id := 5 }] } []
      rfl rfl rfl rfl (by decide) rfl
